import Mathlib

/-!
Shallow embedding of `src/get_my_liked_tweets.py` (class `LikedTweetsFetcher`),
the resumable, checkpointed collection pipeline of the repository.

Modelling conventions:
* Tweet / user ids are `Nat` (Python ints); `str(x)` is `toString x`.
* The filesystem holding cached media is an association list `path ↦ contents`.
* The network is a function `String → Option String` (`requests.get`; `none`
  models any raised exception or bad status).
* The remote v2 API (`tweepy.Client`) is a `Source`: `getMe` models
  `client.get_me()` (`Except.error` = raised exception, `.ok none` = falsy
  `me.data`), and `pages tok batch` models `client.get_liked_tweets(...)`.
  Pagination tokens are opaque `Option Nat` values (`none` = start of history).
* Wall-clock fields (`last_updated` in the checkpoint) are not modelled.
* Every externally visible operation of a run is recorded in an ordered
  journal; a flush entry records the pair of writes
  `save_tweets_data(); save_checkpoint(...)` performed in that order.
-/

/-- One user record from `response.includes["users"]`. -/
structure Author where
  id : Nat
  name : String
  username : String
  profile_image_url : Option String
deriving Repr, DecidableEq

/-- One media record from `response.includes["media"]`. -/
structure MediaRec where
  media_key : String
  mtype : String
  url : Option String
  preview_image_url : Option String
deriving Repr, DecidableEq

/-- One tweet object from `response.data`. `attachments` is
`tweet.attachments["media_keys"]` when the attachments dict is present and
truthy and carries that key, otherwise `none`. -/
structure Tweet where
  id : Nat
  created_at : Option String
  text : String
  author_id : Nat
  public_metrics : Option (List (String × Nat))
  attachments : Option (List String)
deriving Repr, DecidableEq

/-- `author` sub-dict of a processed tweet (built in `process_tweet`). -/
structure AuthorData where
  id : String
  name : String
  username : String
  profile_image_url : Option String
deriving Repr, DecidableEq

/-- One entry of a processed tweet's `media` list. -/
structure MediaInfo where
  mtype : String
  url : String
  local_path : Option String
deriving Repr, DecidableEq

/-- One element of `self.tweets_data`: the dict built by `process_tweet`. -/
structure TweetData where
  id : String
  created_at : Option String
  text : String
  author : AuthorData
  like_count : Nat
  retweet_count : Nat
  tweet_url : String
  media : List MediaInfo
deriving Repr, DecidableEq

/-- The checkpoint record written by `save_checkpoint` (the wall-clock
`last_updated` field is not modelled). -/
structure Checkpoint where
  pagination_token : Option Nat
  tweets_fetched : Nat
deriving Repr, DecidableEq

/-- `dict.get` over a Python dict built by a comprehension
`{key(x): x for x in l}`: later entries overwrite earlier ones, so the
lookup returns the last matching element. -/
def pyDictGet (key : α → Nat) (l : List α) (k : Nat) : Option α :=
  l.foldl (fun acc x => if key x == k then some x else acc) none

/-- Same, for string keys (the media dict is keyed by `media_key`). -/
def pyDictGetS (key : α → String) (l : List α) (k : String) : Option α :=
  l.foldl (fun acc x => if key x == k then some x else acc) none

/-- `tweet.public_metrics.get(k, 0) if tweet.public_metrics else 0`. -/
def metricsGet (m : Option (List (String × Nat))) (k : String) : Nat :=
  match m with
  | none => 0
  | some l => (l.lookup k).getD 0

/-- `process_tweet` (src lines 138-161): build the persisted dict for one
tweet. The `media` list starts empty and is filled in by the caller. -/
def process_tweet (tweet : Tweet) (author : Author) : TweetData :=
  { id := toString tweet.id
    created_at := tweet.created_at
    text := tweet.text
    author :=
      { id := toString author.id
        name := author.name
        username := author.username
        profile_image_url := author.profile_image_url }
    like_count := metricsGet tweet.public_metrics "like_count"
    retweet_count := metricsGet tweet.public_metrics "retweet_count"
    tweet_url :=
      "https://twitter.com/" ++ author.username ++ "/status/" ++ toString tweet.id
    media := [] }

/-! ## The resource cache: `download_media` (src lines 107-136) -/

/-- The media directory contents: `path ↦ file contents`. -/
abbrev FS := List (String × String)

/-- `os.path.exists` restricted to the media directory. -/
def fsExists (fs : FS) (p : String) : Bool :=
  fs.any (fun e => e.1 == p)

/-- A single filesystem mutation performed by the resource cache. -/
inductive FsEvent where
  | write (path : String) (content : String)
  | rename (src dst : String)
deriving Repr, DecidableEq

/-- Python's `str.split(sep)` for a one-character separator: split at every
occurrence, keeping empty segments (so the result is never empty). -/
def splitOnChar (c : Char) : List Char → List (List Char)
  | [] => [[]]
  | x :: xs =>
    if x = c then [] :: splitOnChar c xs
    else
      match splitOnChar c xs with
      | [] => [[x]]
      | r :: rs => (x :: r) :: rs

/-- Extension inference (src lines 111-113):
`ext = media_url.split(".")[-1].split("?")[0]`, defaulting to `"jpg"`
when not in the allow-list. -/
def extOf (media_url : String) : String :=
  let lastSeg := (splitOnChar '.' media_url.toList).getLastD []
  let e := String.mk ((splitOnChar '?' lastSeg).headD [])
  if e == "jpg" || e == "jpeg" || e == "png" || e == "gif" || e == "mp4"
  then e else "jpg"

/-- The deterministic local filename `f"{tweet_id}_{media_index}.{ext}"`. -/
def mediaFilename (tweet_id : Nat) (media_index : Nat) (media_url : String) :
    String :=
  toString tweet_id ++ "_" ++ toString media_index ++ "." ++ extOf media_url

/-- `os.path.join(self.media_dir, filename)`. -/
def mediaPath (media_dir : String) (tweet_id : Nat) (media_index : Nat)
    (media_url : String) : String :=
  media_dir ++ "/" ++ mediaFilename tweet_id media_index media_url

/-- Result of one `download_media` call: the returned value (`none` models the
`except` branch returning `None`), the filesystem afterwards, the filesystem
mutations performed, and how many network GETs (`requests.get`) were issued. -/
structure DlResult where
  path : Option String
  fs : FS
  events : List FsEvent
  fetches : Nat
deriving Repr, DecidableEq

/-- `download_media` (src lines 107-136). If the derived path exists the call
returns it immediately; otherwise it issues one GET and, on success, writes
the body directly to the derived path (`open(filepath, "wb")`) and returns
the path; any failure returns `None`. -/
def download_media (media_dir : String) (net : String → Option String)
    (fs : FS) (media_url : String) (tweet_id : Nat) (media_index : Nat) :
    DlResult :=
  let filepath := mediaPath media_dir tweet_id media_index media_url
  if fsExists fs filepath then
    { path := some filepath, fs := fs, events := [], fetches := 0 }
  else
    match net media_url with
    | none => { path := none, fs := fs, events := [], fetches := 1 }
    | some content =>
        { path := some filepath
          fs := fs ++ [(filepath, content)]
          events := [FsEvent.write filepath content]
          fetches := 1 }

/-! ## The collection engine: `fetch_liked_tweets` (src lines 163-296) -/

/-- One page returned by `client.get_liked_tweets`: `response.data`,
`response.includes["users"]`, `response.includes["media"]` (empty lists model
absent includes) and `response.meta.next_token` (`none` when the attribute is
absent, src line 276). -/
structure Page where
  data : List Tweet
  users : List Author
  media : List MediaRec
  next_token : Option Nat
deriving Repr, DecidableEq

/-- The authenticated remote source. `getMe` models `client.get_me()`
(`.error` = raised exception, `.ok none` = falsy `me.data`); `pages tok n`
models `client.get_liked_tweets(..., max_results := n, pagination_token :=
tok)` with `.error` modelling a raised (unrecoverable) exception. -/
structure Source where
  getMe : Except String (Option Nat)
  pages : Option Nat → Nat → Except String Page

/-- Run configuration: the parameters of `fetch_liked_tweets`, the media
directory, and the network capability used by `download_media`. -/
structure Cfg where
  count : Nat
  save_interval : Nat
  download_media : Bool
  media_dir : String
  net : String → Option String

/-- Externally visible operations of a run, in order. -/
inductive Event where
  | getMe
  | fetchPageOk (token : Option Nat) (batch : Nat) (next : Option Nat)
  | fetchPageErr (token : Option Nat) (batch : Nat)
  | fetchResource (url : String)
  | fsWrite (path : String)
  | writeDataset (d : List TweetData)
  | writeCheckpoint (c : Checkpoint)
  | pageDone (token : Option Nat) (complete : Bool) (newItems : Nat)
deriving Repr, DecidableEq

/-- A journal entry: either a single non-persistence operation, or one flush,
i.e. the statement pair `save_tweets_data(); save_checkpoint(...)` executed
in that order (src lines 268-269, 287-288, 292-293). -/
inductive Entry where
  | ev (e : Event)
  | flush (d : List TweetData) (c : Checkpoint)
deriving Repr, DecidableEq

/-- Flatten journal entries to the sequence of individual operations; a flush
becomes the Dataset write followed by the Checkpoint write, in the order the
two statements execute. -/
def flattenJ : List Entry → List Event
  | [] => []
  | Entry.ev e :: r => e :: flattenJ r
  | Entry.flush d c :: r => Event.writeDataset d :: Event.writeCheckpoint c :: flattenJ r

/-- Mutable state of one `fetch_liked_tweets` run. -/
structure RunState where
  tweets_data : List TweetData
  existing_ids : List String
  tweets_fetched : Nat
  pagination_token : Option Nat
  entries : List Entry
  fs : FS
deriving Repr, DecidableEq

/-- Record one non-persistence operation. -/
def emitE (st : RunState) (e : Event) : RunState :=
  { st with entries := st.entries ++ [Entry.ev e] }

/-- `save_tweets_data(); save_checkpoint(pagination_token=pagination_token,
tweets_fetched=tweets_fetched)`: one flush of the current state. -/
def doFlush (st : RunState) : RunState :=
  { st with entries := st.entries ++
      [Entry.flush st.tweets_data
        { pagination_token := st.pagination_token
          tweets_fetched := st.tweets_fetched }] }

/-- Media handling for one tweet (src lines 232-259): one iteration of
`for i, media_key in enumerate(tweet.attachments["media_keys"])`.
Returns the updated `tweet_data.media` list and state. -/
def processMediaKeys (cfg : Cfg) (md : List MediaRec) (tweet_id : Nat) :
    List String → Nat → List MediaInfo → RunState → List MediaInfo × RunState
  | [], _, acc, st => (acc, st)
  | k :: rest, i, acc, st =>
    match pyDictGetS MediaRec.media_key md k with
    | none => processMediaKeys cfg md tweet_id rest (i + 1) acc st
    | some m =>
      let media_url : Option String :=
        match m.url with
        | some u => some u
        | none => m.preview_image_url
      match media_url with
      | none => processMediaKeys cfg md tweet_id rest (i + 1) acc st
      | some u =>
        if cfg.download_media then
          let r := download_media cfg.media_dir cfg.net st.fs u tweet_id i
          let st1 : RunState :=
            { st with
              fs := r.fs
              entries := st.entries ++
                (if r.fetches > 0 then [Entry.ev (Event.fetchResource u)] else []) ++
                r.events.map (fun e =>
                  match e with
                  | FsEvent.write p _ => Entry.ev (Event.fsWrite p)
                  | FsEvent.rename _ p => Entry.ev (Event.fsWrite p)) }
          let info : MediaInfo :=
            { mtype := m.mtype, url := u, local_path := r.path }
          processMediaKeys cfg md tweet_id rest (i + 1) (acc ++ [info]) st1
        else
          let info : MediaInfo := { mtype := m.mtype, url := u, local_path := none }
          processMediaKeys cfg md tweet_id rest (i + 1) (acc ++ [info]) st

/-- Appending one processed tweet (src lines 261-264): append to the Dataset,
register the id in the accumulator, bump `tweets_fetched`. -/
def appendTweet (st : RunState) (tid : String) (td : TweetData) : RunState :=
  { st with
    tweets_data := st.tweets_data ++ [td]
    existing_ids := tid :: st.existing_ids
    tweets_fetched := st.tweets_fetched + 1 }

/-- The incremental save (src lines 267-269): flush when the counter hits the
save interval. -/
def maybeFlush (cfg : Cfg) (st : RunState) : RunState :=
  if st.tweets_fetched % cfg.save_interval == 0 then doFlush st else st

/-- The per-page tweet loop (src lines 218-273). Returns the updated state and
`true` when the `for` loop ran to completion (no early `break` at the target
count), together with the number of new tweets consumed from this page. -/
def processTweets (cfg : Cfg) (ud : List Author) (md : List MediaRec) :
    List Tweet → RunState → RunState × Bool × Nat
  | [], st => (st, true, 0)
  | t :: rest, st =>
    if toString t.id ∈ st.existing_ids then
      processTweets cfg ud md rest st
    else
      match pyDictGet Author.id ud t.author_id with
      | none => processTweets cfg ud md rest st
      | some a =>
        let td0 := process_tweet t a
        let mr : List MediaInfo × RunState :=
          match t.attachments with
          | none => ([], st)
          | some keys => processMediaKeys cfg md t.id keys 0 [] st
        let st3 := maybeFlush cfg
          (appendTweet mr.2 (toString t.id) { td0 with media := mr.1 })
        if cfg.count ≤ st3.tweets_fetched then (st3, false, 1)
        else
          let r := processTweets cfg ud md rest st3
          (r.1, r.2.1, r.2.2 + 1)

/-- Outcome of the `while tweets_fetched < count` loop (src lines 185-282):
`done` = loop exited normally or via a `break`; `failed` = an exception is
propagating (the `except` handler has not yet run); `fuel` = the iteration
bound of the model was exhausted. -/
inductive LoopOut where
  | done (st : RunState)
  | failed (e : String) (st : RunState)
  | fuel (st : RunState)
deriving Repr, DecidableEq

/-- Advancing the resume cursor (src line 277):
`pagination_token = response.meta.next_token`. -/
def advanceToken (st : RunState) (nt : Nat) : RunState :=
  { st with pagination_token := some nt }

/-- One `while` iteration per unit of fuel (src lines 185-282). -/
def loop (cfg : Cfg) (src : Source) : Nat → RunState → LoopOut
  | fuel, st =>
    if st.tweets_fetched < cfg.count then
      match fuel with
      | 0 => LoopOut.fuel st
      | fuel' + 1 =>
        let batch := min 100 (cfg.count - st.tweets_fetched)
        match src.pages st.pagination_token batch with
        | Except.error e =>
            LoopOut.failed e (emitE st (Event.fetchPageErr st.pagination_token batch))
        | Except.ok page =>
          let st1 := emitE st (Event.fetchPageOk st.pagination_token batch page.next_token)
          if page.data.isEmpty then LoopOut.done st1
          else
            let r := processTweets cfg page.users page.media page.data st1
            let st3 := emitE r.1 (Event.pageDone st.pagination_token r.2.1 r.2.2)
            match page.next_token with
            | some nt => loop cfg src fuel' (advanceToken st3 nt)
            | none => LoopOut.done st3
    else LoopOut.done st

/-- Result of `fetch_liked_tweets`: `ok` = a normal return carrying the
returned list, `error` = a propagated exception (`raise`, src line 289),
`fuelOut` = model iteration bound exhausted. The final `RunState` is kept so
the journal can be inspected. -/
inductive FetchResult where
  | ok (tweets : List TweetData) (st : RunState)
  | error (e : String) (st : RunState)
  | fuelOut (st : RunState)
deriving Repr, DecidableEq

/-- Final state carried by a `FetchResult`. -/
def FetchResult.state : FetchResult → RunState
  | FetchResult.ok _ st => st
  | FetchResult.error _ st => st
  | FetchResult.fuelOut st => st

/-- Returned list on a normal return, `none` when an exception propagated. -/
def FetchResult.retVal : FetchResult → Option (List TweetData)
  | FetchResult.ok t _ => some t
  | _ => none

/-- Whether the call raised to the caller. -/
def FetchResult.raised : FetchResult → Bool
  | FetchResult.error _ _ => true
  | _ => false

/-- Initial run state (src lines 179-182): loaded Dataset, accumulator seeded
from its ids, `tweets_fetched = len(self.tweets_data)`, the loaded
checkpoint's cursor, and a journal recording the `get_me` call. -/
def initState (tweets_data0 : List TweetData) (checkpoint_token0 : Option Nat)
    (fs0 : FS) : RunState :=
  { tweets_data := tweets_data0
    existing_ids := tweets_data0.map TweetData.id
    tweets_fetched := tweets_data0.length
    pagination_token := checkpoint_token0
    entries := [Entry.ev Event.getMe]
    fs := fs0 }

/-- `fetch_liked_tweets` (src lines 163-296). Parameters: configuration,
remote source, iteration fuel, the Dataset loaded at startup
(`self.tweets_data`), the loaded checkpoint's `pagination_token`, and the
initial media directory contents. -/
def fetch_liked_tweets (cfg : Cfg) (src : Source) (fuel : Nat)
    (tweets_data0 : List TweetData) (checkpoint_token0 : Option Nat)
    (fs0 : FS) : FetchResult :=
  match src.getMe with
  | Except.error _ => FetchResult.ok [] (initState tweets_data0 checkpoint_token0 fs0)
  | Except.ok none => FetchResult.ok [] (initState tweets_data0 checkpoint_token0 fs0)
  | Except.ok (some _) =>
    match loop cfg src fuel (initState tweets_data0 checkpoint_token0 fs0) with
    | LoopOut.done st => FetchResult.ok (doFlush st).tweets_data (doFlush st)
    | LoopOut.failed e st => FetchResult.error e (doFlush st)
    | LoopOut.fuel st => FetchResult.fuelOut st

/-! ## Claim-level predicates -/

/-- Well-formedness of a single journal entry: the only persistence writes are
flush pairs, and a flush's checkpoint counts exactly the items of the Dataset
document written alongside it. -/
def entryOk : Entry → Bool
  | Entry.ev (Event.writeDataset _) => false
  | Entry.ev (Event.writeCheckpoint _) => false
  | Entry.ev _ => true
  | Entry.flush d c => c.tweets_fetched == d.length

/-- An entry emitted while one page is being processed: a media fetch, a media
file write, or a flush whose checkpoint counts the dataset written with it and
whose saved cursor is the request token `tok` of the page being processed. -/
def pageLocalEntry (tok : Option Nat) : Entry → Bool
  | Entry.ev (Event.fetchResource _) => true
  | Entry.ev (Event.fsWrite _) => true
  | Entry.flush d c =>
      (c.tweets_fetched == d.length) && (c.pagination_token == tok)
  | _ => false

/-- C2 as a predicate on the flat operation sequence: every Checkpoint write
is immediately preceded by a Dataset write, and the checkpoint's
`tweets_fetched` counts exactly the items of that Dataset document (so every
counted item exists in the persisted Dataset). -/
def ckptOk : List Event → Bool
  | [] => true
  | Event.writeDataset d :: Event.writeCheckpoint c :: rest =>
      (c.tweets_fetched == d.length) && ckptOk rest
  | Event.writeCheckpoint _ :: _ => false
  | _ :: rest => ckptOk rest

/-- Cursors that a flush may legitimately save, given the set `A` of cursors
valid around the most recent page request: a page request for token `t`
narrows the valid cursors to `t` itself and, on success, the returned
`next_token`. -/
def stepAllowed (A : List (Option Nat)) : Entry → List (Option Nat)
  | Entry.ev (Event.fetchPageOk t _ next) =>
      (match next with
       | some n => [t, some n]
       | none => [t])
  | Entry.ev (Event.fetchPageErr t _) => [t]
  | _ => A

/-- Valid-cursor set after a sequence of entries. -/
def allowedAfterE (A : List (Option Nat)) (l : List Entry) : List (Option Nat) :=
  l.foldl stepAllowed A

/-- Amended C1 as a predicate: scanning the journal, every flushed
checkpoint's cursor is either the request token of the most recent page fetch
before it or that fetch's returned `next_token` (initially: the cursor loaded
from the previous checkpoint). -/
def cursorOkE (A : List (Option Nat)) : List Entry → Bool
  | [] => true
  | en :: rest =>
      (match en with
       | Entry.flush _ c => decide (c.pagination_token ∈ A)
       | _ => true) && cursorOkE (stepAllowed A en) rest

/-- C1 as stated, as a predicate on the flat operation sequence: no persisted
checkpoint may save a cursor equal to the request token of a page that was
already fully processed with at least one of its items consumed into the
Dataset (re-applying such a cursor re-requests that consumed page). `S`
accumulates the request tokens of fully consumed pages. -/
def claimC1Scan (S : List (Option Nat)) : List Event → Bool
  | [] => true
  | Event.pageDone t true (_ + 1) :: rest => claimC1Scan (t :: S) rest
  | Event.writeCheckpoint c :: rest =>
      decide (c.pagination_token ∉ S) && claimC1Scan S rest
  | _ :: rest => claimC1Scan S rest

/-- C5 as stated, as a predicate on the resource cache's filesystem events:
the downloaded bytes are placed at the final path by an atomic rename (from a
temporary path), and no write ever targets the final path directly. -/
def atomicPlacement (events : List FsEvent) (finalPath : String) : Bool :=
  events.any (fun e =>
    match e with
    | FsEvent.rename _ d => d == finalPath
    | _ => false) &&
  events.all (fun e =>
    match e with
    | FsEvent.write p _ => p != finalPath
    | _ => true)

/-- Dedup invariant on a run state: Dataset ids are pairwise distinct and
every Dataset id is registered in the accumulator `existing_ids`. -/
abbrev DedupInv (st : RunState) : Prop :=
  (st.tweets_data.map TweetData.id).Nodup ∧
    ∀ x ∈ st.tweets_data.map TweetData.id, x ∈ st.existing_ids

/-- Final state of a loop outcome. -/
def LoopOut.state : LoopOut → RunState
  | LoopOut.done st => st
  | LoopOut.failed _ st => st
  | LoopOut.fuel st => st

/-! ## Concrete fixtures for witnesses and counterexamples -/

/-- A tweet with no media and no metrics. -/
def fxTweet (n : Nat) (au : Nat) : Tweet :=
  { id := n, created_at := none, text := "hello", author_id := au,
    public_metrics := none, attachments := none }

/-- A tweet carrying one media key. -/
def fxTweetMedia : Tweet :=
  { id := 3, created_at := none, text := "pic", author_id := 7,
    public_metrics := none, attachments := some ["mk1"] }

def fxAuthor : Author :=
  { id := 7, name := "Ann", username := "ann", profile_image_url := none }

def fxMediaRec : MediaRec :=
  { media_key := "mk1", mtype := "photo",
    url := some "http://img/a.png", preview_image_url := none }

/-- Target 5 items, save every 20, media download off, all downloads fail. -/
def fxCfg : Cfg :=
  { count := 5, save_interval := 20, download_media := false,
    media_dir := "media", net := fun _ => none }

/-- Same, but media download on. -/
def fxCfgDl : Cfg := { fxCfg with download_media := true }

/-- Target 1 item. -/
def fxCfg1 : Cfg := { fxCfg with count := 1 }

/-- A source with a single page of two tweets and no further pages. -/
def fxSrcOk : Source :=
  { getMe := Except.ok (some 1)
    pages := fun t _ =>
      match t with
      | none => Except.ok
          { data := [fxTweet 1 7, fxTweet 2 7], users := [fxAuthor],
            media := [], next_token := none }
      | some _ => Except.ok
          { data := [], users := [], media := [], next_token := none } }

/-- A source whose authentication handshake raises. -/
def fxSrcAuthFail : Source :=
  { getMe := Except.error "auth failed", pages := fun _ _ => Except.error "x" }

/-- A source whose first page fetch raises. -/
def fxSrcFetchFail : Source :=
  { getMe := Except.ok (some 1), pages := fun _ _ => Except.error "boom" }

/-- A previously persisted item, as loaded at startup. -/
def fxTd : TweetData :=
  { id := "9", created_at := none, text := "old",
    author := { id := "7", name := "Ann", username := "ann",
                profile_image_url := none },
    like_count := 0, retweet_count := 0,
    tweet_url := "https://twitter.com/ann/status/9", media := [] }

/-- An empty starting state for page-processing witnesses. -/
def fxSt0 : RunState :=
  { tweets_data := [], existing_ids := [], tweets_fetched := 0,
    pagination_token := none, entries := [], fs := [] }

/-- The counter invariant of the engine: `tweets_fetched` always equals the
length of the in-memory Dataset (`tweets_fetched` is initialised to
`len(self.tweets_data)` and incremented exactly when an item is appended). -/
abbrev LenInv (st : RunState) : Prop :=
  st.tweets_fetched = st.tweets_data.length

/-- `st'` extends `st` by journal entries local to the processing of a page
requested with token `tok`. -/
abbrev PageExt (tok : Option Nat) (st st' : RunState) : Prop :=
  ∃ Δ, st'.entries = st.entries ++ Δ ∧ Δ.all (pageLocalEntry tok) = true

/-- `st'` is `st` after some media handling: the Dataset, accumulator,
counter and cursor are untouched, and the journal only gained page-local
entries (media fetches, media file writes). -/
abbrev MediaExt (st st' : RunState) : Prop :=
  st'.tweets_data = st.tweets_data ∧
  st'.existing_ids = st.existing_ids ∧
  st'.tweets_fetched = st.tweets_fetched ∧
  st'.pagination_token = st.pagination_token ∧
  ∀ tok, ∃ Δ, st'.entries = st.entries ++ Δ ∧ Δ.all (pageLocalEntry tok) = true

/-! ## Basic lemmas about the resource cache -/

lemma download_media_hit (media_dir : String) (net : String → Option String)
    (fs : FS) (u : String) (tid i : Nat)
    (h : fsExists fs (mediaPath media_dir tid i u) = true) :
    download_media media_dir net fs u tid i =
      { path := some (mediaPath media_dir tid i u), fs := fs,
        events := [], fetches := 0 } := by
  simp [download_media, h]

lemma download_media_miss_ok (media_dir : String) (net : String → Option String)
    (fs : FS) (u : String) (tid i : Nat) (content : String)
    (h : fsExists fs (mediaPath media_dir tid i u) = false)
    (hn : net u = some content) :
    download_media media_dir net fs u tid i =
      { path := some (mediaPath media_dir tid i u)
        fs := fs ++ [(mediaPath media_dir tid i u, content)]
        events := [FsEvent.write (mediaPath media_dir tid i u) content]
        fetches := 1 } := by
  simp [download_media, h, hn]

lemma download_media_miss_fail (media_dir : String) (net : String → Option String)
    (fs : FS) (u : String) (tid i : Nat)
    (h : fsExists fs (mediaPath media_dir tid i u) = false)
    (hn : net u = none) :
    download_media media_dir net fs u tid i =
      { path := none, fs := fs, events := [], fetches := 1 } := by
  simp [download_media, h, hn]

lemma fsExists_after_write (fs : FS) (p content : String) :
    fsExists (fs ++ [(p, content)]) p = true := by
  simp [fsExists]

/-! ## C4: resource cache idempotence -/

/-- C4: the resource cache is idempotent. If the deterministically derived
local file already exists, `download_media` returns that path with no network
fetch and no filesystem change; and calling it twice with the same
`(item_id, index, url)` starting from a state where the file is absent, with
the network fetch of the first call succeeding, performs exactly one network
fetch in total (first call: one fetch; second call: zero) and the second call
returns the same derived path. -/
theorem c4_resource_cache_idempotent (media_dir : String)
    (net : String → Option String) (fsA fsB : FS) (u : String) (tid i : Nat)
    (content : String)
    (hA : fsExists fsA (mediaPath media_dir tid i u) = true)
    (hB : fsExists fsB (mediaPath media_dir tid i u) = false)
    (hn : net u = some content) :
    download_media media_dir net fsA u tid i =
      { path := some (mediaPath media_dir tid i u), fs := fsA,
        events := [], fetches := 0 } ∧
    (download_media media_dir net fsB u tid i).fetches = 1 ∧
    (download_media media_dir net
        (download_media media_dir net fsB u tid i).fs u tid i).fetches = 0 ∧
    (download_media media_dir net
        (download_media media_dir net fsB u tid i).fs u tid i).path =
      some (mediaPath media_dir tid i u) := by
  have h1 := download_media_miss_ok media_dir net fsB u tid i content hB hn
  have h2 : fsExists (download_media media_dir net fsB u tid i).fs
      (mediaPath media_dir tid i u) = true := by
    rw [h1]; exact fsExists_after_write fsB _ content
  have h3 := download_media_hit media_dir net
    (download_media media_dir net fsB u tid i).fs u tid i h2
  refine ⟨download_media_hit media_dir net fsA u tid i hA, ?_, ?_, ?_⟩
  · rw [h1]
  · rw [h3]
  · rw [h3]

/-- C4 witness: concrete instantiation. -/
theorem c4_resource_cache_idempotent_witness :
    download_media "media" (fun _ => some "B")
        [("media/3_0.png", "OLD")] "http://img/a.png" 3 0 =
      { path := some (mediaPath "media" 3 0 "http://img/a.png"),
        fs := [("media/3_0.png", "OLD")], events := [], fetches := 0 } ∧
    (download_media "media" (fun _ => some "B") [] "http://img/a.png" 3 0).fetches = 1 ∧
    (download_media "media" (fun _ => some "B")
        (download_media "media" (fun _ => some "B") [] "http://img/a.png" 3 0).fs
        "http://img/a.png" 3 0).fetches = 0 ∧
    (download_media "media" (fun _ => some "B")
        (download_media "media" (fun _ => some "B") [] "http://img/a.png" 3 0).fs
        "http://img/a.png" 3 0).path =
      some (mediaPath "media" 3 0 "http://img/a.png") :=
  c4_resource_cache_idempotent "media" (fun _ => some "B")
    [("media/3_0.png", "OLD")] [] "http://img/a.png" 3 0 "B"
    (by decide) (by decide) rfl

/-! ## C5: no temporary file, no atomic rename -/

/-- C5 counterexample: at a concrete input with the cached file absent and the
fetch succeeding, `download_media` performs the fetch but writes the body
directly to the final derived path — its filesystem events contain no rename
to the final path and do contain a direct write to it, so the claimed
"write to a temporary path, then atomically place it at the final path"
behaviour is false (and an interrupted write can leave a partial file at the
final path). -/
theorem c5_counterexample :
    atomicPlacement
        (download_media "media" (fun _ => some "B") [] "http://img/a.png" 3 0).events
        (mediaPath "media" 3 0 "http://img/a.png") = false ∧
    (download_media "media" (fun _ => some "B") [] "http://img/a.png" 3 0).events =
      [FsEvent.write (mediaPath "media" 3 0 "http://img/a.png") "B"] ∧
    (download_media "media" (fun _ => some "B") [] "http://img/a.png" 3 0).path =
      some (mediaPath "media" 3 0 "http://img/a.png") := by
  refine ⟨by decide, by decide, by decide⟩

/-- C5 amended: when the cached file does not yet exist and the fetch
succeeds, the resource cache performs the fetch and writes the downloaded
bytes directly to the final derived path (a single write event targeting that
path; no temporary path and no rename), returning that path. -/
theorem c5_amended_direct_write (media_dir : String)
    (net : String → Option String) (fs : FS) (u : String) (tid i : Nat)
    (content : String)
    (h : fsExists fs (mediaPath media_dir tid i u) = false)
    (hn : net u = some content) :
    download_media media_dir net fs u tid i =
      { path := some (mediaPath media_dir tid i u)
        fs := fs ++ [(mediaPath media_dir tid i u, content)]
        events := [FsEvent.write (mediaPath media_dir tid i u) content]
        fetches := 1 } :=
  download_media_miss_ok media_dir net fs u tid i content h hn

/-- C5 amended witness: concrete instantiation. -/
theorem c5_amended_direct_write_witness :
    download_media "media" (fun _ => some "B") [] "http://img/a.png" 3 0 =
      { path := some (mediaPath "media" 3 0 "http://img/a.png")
        fs := [(mediaPath "media" 3 0 "http://img/a.png", "B")]
        events := [FsEvent.write (mediaPath "media" 3 0 "http://img/a.png") "B"]
        fetches := 1 } :=
  c5_amended_direct_write "media" (fun _ => some "B") [] "http://img/a.png" 3 0 "B"
    (by decide) rfl

/-! ## C7: authentication failure is swallowed, not raised -/

/-- C7 counterexample: with a previously persisted Dataset of one item loaded
at startup and `client.get_me()` raising, `fetch_liked_tweets` neither
returns the full Dataset nor raises: it swallows the authentication error and
returns normally with an empty list (src lines 175-177 `return []`). -/
theorem c7_counterexample :
    (fetch_liked_tweets fxCfg fxSrcAuthFail 5 [fxTd] none []).retVal = some [] ∧
    (fetch_liked_tweets fxCfg fxSrcAuthFail 5 [fxTd] none []).raised = false ∧
    (fetch_liked_tweets fxCfg fxSrcAuthFail 5 [fxTd] none []).retVal ≠
      some [fxTd] := by
  refine ⟨rfl, rfl, by decide⟩

/-- C7 amended: an authentication failure terminates the run immediately with
no page fetch and no flush, but it is not surfaced as an exception:
`fetch_liked_tweets` logs it and returns an empty list normally, regardless of
any loaded Dataset. -/
theorem c7_amended_auth_swallowed (cfg : Cfg) (src : Source) (fuel : Nat)
    (d0 : List TweetData) (t0 : Option Nat) (fs0 : FS) (e : String)
    (hme : src.getMe = Except.error e) :
    fetch_liked_tweets cfg src fuel d0 t0 fs0 =
      FetchResult.ok []
        { tweets_data := d0, existing_ids := d0.map TweetData.id,
          tweets_fetched := d0.length, pagination_token := t0,
          entries := [Entry.ev Event.getMe], fs := fs0 } := by
  simp only [fetch_liked_tweets, hme]
  rfl

/-- C7 amended witness: concrete instantiation. -/
theorem c7_amended_auth_swallowed_witness :
    fetch_liked_tweets fxCfg fxSrcAuthFail 5 [fxTd] none [] =
      FetchResult.ok []
        { tweets_data := [fxTd], existing_ids := [fxTd].map TweetData.id,
          tweets_fetched := [fxTd].length, pagination_token := none,
          entries := [Entry.ev Event.getMe], fs := [] } :=
  c7_amended_auth_swallowed fxCfg fxSrcAuthFail 5 [fxTd] none [] "auth failed" rfl

/-! ## C9: an item with a missing author record is skipped, the page continues -/

/-- C9: for an item whose id is new but whose author record is missing from
the page's user lookup, `fetch_liked_tweets`'s per-page loop skips exactly
that item — the state (Dataset, accumulator, counters, journal) is unchanged
by it — and continues processing the remaining items of the page; the
malformed item is never fatal (processing is total). -/
theorem c9_missing_author_skipped (cfg : Cfg) (ud : List Author)
    (md : List MediaRec) (t : Tweet) (rest : List Tweet) (st : RunState)
    (hid : toString t.id ∉ st.existing_ids)
    (ha : pyDictGet Author.id ud t.author_id = none) :
    processTweets cfg ud md (t :: rest) st = processTweets cfg ud md rest st := by
  simp only [processTweets, if_neg hid, ha]

/-- C9 witness: a page whose first item references an unknown author is
processed exactly as the page without that item. -/
theorem c9_missing_author_skipped_witness :
    processTweets fxCfg [fxAuthor] [] (fxTweet 5 99 :: [fxTweet 2 7]) fxSt0 =
      processTweets fxCfg [fxAuthor] [] [fxTweet 2 7] fxSt0 :=
  c9_missing_author_skipped fxCfg [fxAuthor] [] (fxTweet 5 99) [fxTweet 2 7]
    fxSt0 (by decide) (by decide)

/-! ## C8: a failed attachment download is recovered locally -/

/-- C8: when a new item carries one attachment whose download fails (one
network GET is attempted and fails, the cached file being absent), the
attachment is recorded with `local_path = none`, the item is still normalized
and appended to the Dataset, the accumulator and counter advance, and the
per-page loop continues with the remaining items — the failure never aborts
the item or the run. (The flush/stop guards are assumed inactive at this
item so that the continuation is the plain recursive call.) -/
theorem c8_download_failure_recovered (cfg : Cfg) (ud : List Author)
    (md : List MediaRec) (t : Tweet) (rest : List Tweet) (st : RunState)
    (a : Author) (k u : String) (m : MediaRec)
    (hid : toString t.id ∉ st.existing_ids)
    (ha : pyDictGet Author.id ud t.author_id = some a)
    (hatt : t.attachments = some [k])
    (hm : pyDictGetS MediaRec.media_key md k = some m)
    (hurl : m.url = some u)
    (hdl : cfg.download_media = true)
    (hnet : cfg.net u = none)
    (hfs : fsExists st.fs (mediaPath cfg.media_dir t.id 0 u) = false)
    (hcount : st.tweets_fetched + 1 < cfg.count)
    (hsave : (st.tweets_fetched + 1) % cfg.save_interval ≠ 0) :
    (processTweets cfg ud md (t :: rest) st).1 =
      (processTweets cfg ud md rest
        { st with
          tweets_data := st.tweets_data ++
            [{ process_tweet t a with
                media := [{ mtype := m.mtype, url := u, local_path := none }] }]
          existing_ids := toString t.id :: st.existing_ids
          tweets_fetched := st.tweets_fetched + 1
          entries := st.entries ++ [Entry.ev (Event.fetchResource u)] }).1 ∧
    (processTweets cfg ud md (t :: rest) st).2.1 =
      (processTweets cfg ud md rest
        { st with
          tweets_data := st.tweets_data ++
            [{ process_tweet t a with
                media := [{ mtype := m.mtype, url := u, local_path := none }] }]
          existing_ids := toString t.id :: st.existing_ids
          tweets_fetched := st.tweets_fetched + 1
          entries := st.entries ++ [Entry.ev (Event.fetchResource u)] }).2.1 ∧
    (processTweets cfg ud md (t :: rest) st).2.2 =
      (processTweets cfg ud md rest
        { st with
          tweets_data := st.tweets_data ++
            [{ process_tweet t a with
                media := [{ mtype := m.mtype, url := u, local_path := none }] }]
          existing_ids := toString t.id :: st.existing_ids
          tweets_fetched := st.tweets_fetched + 1
          entries := st.entries ++ [Entry.ev (Event.fetchResource u)] }).2.2 + 1 := by
  have hdm := download_media_miss_fail cfg.media_dir cfg.net st.fs u t.id 0 hfs hnet
  simp only [processTweets, if_neg hid, ha, hatt, processMediaKeys, hm, hurl, hdl,
    if_pos, hdm]
  simp only [maybeFlush, appendTweet, List.append_nil, List.map_nil, List.nil_append]
  have hsaveb : ((st.tweets_fetched + 1) % cfg.save_interval == 0) = false :=
    beq_eq_false_iff_ne.mpr hsave
  simp only [hsaveb, Bool.false_eq_true, if_false, gt_iff_lt, Nat.zero_lt_one,
    if_true, if_neg (Nat.not_le.mpr hcount)]
  exact ⟨trivial, trivial, trivial⟩

/-- C8 witness: concrete instantiation (one tweet with one media key, the
download fails, the tweet is persisted with `local_path = none`). -/
theorem c8_download_failure_recovered_witness :
    (processTweets fxCfgDl [fxAuthor] [fxMediaRec] (fxTweetMedia :: []) fxSt0).1 =
      (processTweets fxCfgDl [fxAuthor] [fxMediaRec] []
        { fxSt0 with
          tweets_data := fxSt0.tweets_data ++
            [{ process_tweet fxTweetMedia fxAuthor with
                media := [{ mtype := fxMediaRec.mtype, url := "http://img/a.png",
                            local_path := none }] }]
          existing_ids := toString fxTweetMedia.id :: fxSt0.existing_ids
          tweets_fetched := fxSt0.tweets_fetched + 1
          entries := fxSt0.entries ++
            [Entry.ev (Event.fetchResource "http://img/a.png")] }).1 ∧
    (processTweets fxCfgDl [fxAuthor] [fxMediaRec] (fxTweetMedia :: []) fxSt0).2.1 =
      (processTweets fxCfgDl [fxAuthor] [fxMediaRec] []
        { fxSt0 with
          tweets_data := fxSt0.tweets_data ++
            [{ process_tweet fxTweetMedia fxAuthor with
                media := [{ mtype := fxMediaRec.mtype, url := "http://img/a.png",
                            local_path := none }] }]
          existing_ids := toString fxTweetMedia.id :: fxSt0.existing_ids
          tweets_fetched := fxSt0.tweets_fetched + 1
          entries := fxSt0.entries ++
            [Entry.ev (Event.fetchResource "http://img/a.png")] }).2.1 ∧
    (processTweets fxCfgDl [fxAuthor] [fxMediaRec] (fxTweetMedia :: []) fxSt0).2.2 =
      (processTweets fxCfgDl [fxAuthor] [fxMediaRec] []
        { fxSt0 with
          tweets_data := fxSt0.tweets_data ++
            [{ process_tweet fxTweetMedia fxAuthor with
                media := [{ mtype := fxMediaRec.mtype, url := "http://img/a.png",
                            local_path := none }] }]
          existing_ids := toString fxTweetMedia.id :: fxSt0.existing_ids
          tweets_fetched := fxSt0.tweets_fetched + 1
          entries := fxSt0.entries ++
            [Entry.ev (Event.fetchResource "http://img/a.png")] }).2.2 + 1 :=
  c8_download_failure_recovered fxCfgDl [fxAuthor] [fxMediaRec] fxTweetMedia []
    fxSt0 fxAuthor "mk1" "http://img/a.png" fxMediaRec
    (by decide) (by decide) rfl (by decide) rfl rfl rfl (by decide)
    (by decide) (by decide)

/-! ## C10: startup with the target already met -/

/-- C10: if the Dataset loaded at startup already holds at least
`target_count` items and authentication succeeds, `fetch_liked_tweets`
performs no page fetch at all (the journal shows only the `get_me` call and
one flush), leaves the Dataset unchanged, performs exactly one final flush of
Dataset and Checkpoint (with the loaded cursor and the loaded count), and
returns the loaded Dataset. -/
theorem c10_target_already_met (cfg : Cfg) (src : Source) (fuel : Nat)
    (d0 : List TweetData) (t0 : Option Nat) (fs0 : FS) (uid : Nat)
    (hme : src.getMe = Except.ok (some uid))
    (hfull : cfg.count ≤ d0.length) :
    fetch_liked_tweets cfg src fuel d0 t0 fs0 =
      FetchResult.ok d0
        { tweets_data := d0, existing_ids := d0.map TweetData.id,
          tweets_fetched := d0.length, pagination_token := t0,
          entries := [Entry.ev Event.getMe,
            Entry.flush d0 { pagination_token := t0, tweets_fetched := d0.length }],
          fs := fs0 } := by
  simp only [fetch_liked_tweets, hme]
  rw [loop.eq_def]
  simp only [initState, if_neg (Nat.not_lt.mpr hfull)]
  rfl

/-- C10 witness: concrete instantiation (target 1, one loaded item). -/
theorem c10_target_already_met_witness :
    fetch_liked_tweets fxCfg1 fxSrcOk 5 [fxTd] (some 4) [] =
      FetchResult.ok [fxTd]
        { tweets_data := [fxTd], existing_ids := [fxTd].map TweetData.id,
          tweets_fetched := [fxTd].length, pagination_token := some 4,
          entries := [Entry.ev Event.getMe,
            Entry.flush [fxTd] { pagination_token := some 4, tweets_fetched := [fxTd].length }],
          fs := [] } :=
  c10_target_already_met fxCfg1 fxSrcOk 5 [fxTd] (some 4) [] 1 rfl (by decide)

/-! ## C1: counterexample -/

/-- C1 counterexample: run with target 5 against a source whose single page
holds two new tweets and reports no further page. The page is fully processed
and both items are consumed into the Dataset (the `pageDone` event records
completion with 2 new items), yet the final flush — a checkpoint persisted
during the run — saves `pagination_token = none`, the very token that
requested that fully consumed page (the token only advances at src line 277
when `next_token` exists, and the `break` at src line 280 leaves the old
token in place for the final `save_checkpoint` at src line 293). Re-applying
the saved cursor re-requests the already-consumed page, so the claimed
invariant is false. -/
theorem c1_counterexample :
    claimC1Scan []
      (flattenJ (fetch_liked_tweets fxCfg fxSrcOk 5 [] none []).state.entries) =
      false ∧
    (fetch_liked_tweets fxCfg fxSrcOk 5 [] none []).state.entries =
      [Entry.ev Event.getMe,
       Entry.ev (Event.fetchPageOk none 5 none),
       Entry.ev (Event.pageDone none true 2),
       Entry.flush
         [process_tweet (fxTweet 1 7) fxAuthor, process_tweet (fxTweet 2 7) fxAuthor]
         { pagination_token := none, tweets_fetched := 2 }] := by
  exact ⟨by decide, by decide⟩

/-! ## Journal machinery -/

lemma allowedAfterE_append (A : List (Option Nat)) (l1 l2 : List Entry) :
    allowedAfterE A (l1 ++ l2) = allowedAfterE (allowedAfterE A l1) l2 := by
  simp [allowedAfterE, List.foldl_append]

lemma cursorOkE_append (A : List (Option Nat)) (l1 l2 : List Entry) :
    cursorOkE A (l1 ++ l2) =
      (cursorOkE A l1 && cursorOkE (allowedAfterE A l1) l2) := by
  induction l1 generalizing A with
  | nil => simp [cursorOkE, allowedAfterE]
  | cons e r ih =>
    simp [cursorOkE, allowedAfterE, List.foldl_cons, ih, Bool.and_assoc]

lemma cursorOkE_local (tok : Option Nat) (Δ : List Entry) (A : List (Option Nat))
    (hΔ : Δ.all (pageLocalEntry tok) = true) (hA : tok ∈ A) :
    cursorOkE A Δ = true ∧ allowedAfterE A Δ = A := by
  induction Δ with
  | nil => simp [cursorOkE, allowedAfterE]
  | cons e r ih =>
    simp only [List.all_cons, Bool.and_eq_true] at hΔ
    obtain ⟨he, hr⟩ := hΔ
    obtain ⟨ih1, ih2⟩ := ih hr
    cases e with
    | ev e' =>
      cases e' <;> simp_all [pageLocalEntry, cursorOkE, stepAllowed, allowedAfterE]
    | flush d c =>
      simp only [pageLocalEntry, Bool.and_eq_true, beq_iff_eq] at he
      have hc : c.pagination_token ∈ A := he.2 ▸ hA
      constructor
      · simp [cursorOkE, stepAllowed, hc, ih1]
      · simpa [allowedAfterE, stepAllowed] using ih2

lemma entryOk_of_pageLocal (tok : Option Nat) (e : Entry)
    (h : pageLocalEntry tok e = true) : entryOk e = true := by
  cases e with
  | ev e' => cases e' <;> simp_all [pageLocalEntry, entryOk]
  | flush d c =>
    simp only [pageLocalEntry, Bool.and_eq_true] at h
    simpa [entryOk] using h.1

lemma all_entryOk_of_pageLocal (tok : Option Nat) (Δ : List Entry)
    (h : Δ.all (pageLocalEntry tok) = true) : Δ.all entryOk = true := by
  rw [List.all_eq_true] at h ⊢
  exact fun e he => entryOk_of_pageLocal tok e (h e he)

lemma ckptOk_of_entriesOk (es : List Entry) (h : es.all entryOk = true) :
    ckptOk (flattenJ es) = true := by
  induction es with
  | nil => rfl
  | cons e r ih =>
    simp only [List.all_cons, Bool.and_eq_true] at h
    obtain ⟨he, hr⟩ := h
    cases e with
    | ev e' => cases e' <;> simp_all [flattenJ, ckptOk, entryOk]
    | flush d c =>
      simp only [entryOk] at he
      simp [flattenJ, ckptOk, he, ih hr]

lemma mapped_fs_events_local (tok : Option Nat) (evs : List FsEvent) :
    ((evs.map (fun e =>
        match e with
        | FsEvent.write p _ => Entry.ev (Event.fsWrite p)
        | FsEvent.rename _ p => Entry.ev (Event.fsWrite p))).all
      (pageLocalEntry tok)) = true := by
  induction evs with
  | nil => rfl
  | cons e r ih => cases e <;> simp [pageLocalEntry, ih]


lemma mediaExt_refl (st : RunState) : MediaExt st st :=
  ⟨Eq.refl _, Eq.refl _, Eq.refl _, Eq.refl _,
   fun _ => ⟨[], by simp, Eq.refl _⟩⟩

lemma mediaExt_trans {s1 s2 s3 : RunState}
    (h12 : MediaExt s1 s2) (h23 : MediaExt s2 s3) : MediaExt s1 s3 := by
  obtain ⟨a1, a2, a3, a4, a5⟩ := h12
  obtain ⟨b1, b2, b3, b4, b5⟩ := h23
  refine ⟨b1.trans a1, b2.trans a2, b3.trans a3, b4.trans a4, fun tok => ?_⟩
  obtain ⟨Δ1, hΔ1, hΔ1a⟩ := a5 tok
  obtain ⟨Δ2, hΔ2, hΔ2a⟩ := b5 tok
  refine ⟨Δ1 ++ Δ2, ?_, ?_⟩
  · rw [hΔ2, hΔ1, List.append_assoc]
  · simp [List.all_append, hΔ1a, hΔ2a]

lemma processMediaKeys_ext (cfg : Cfg) (md : List MediaRec) (tid : Nat)
    (keys : List String) : ∀ (i : Nat) (acc : List MediaInfo) (st : RunState),
    MediaExt st (processMediaKeys cfg md tid keys i acc st).2 := by
  induction keys with
  | nil =>
    intro i acc st
    simpa [processMediaKeys] using mediaExt_refl st
  | cons k rest ih =>
    intro i acc st
    simp only [processMediaKeys]
    cases hm : pyDictGetS MediaRec.media_key md k with
    | none => exact ih _ _ _
    | some m =>
      dsimp only
      cases hu : m.url with
      | some u =>
        dsimp only
        by_cases hdl : cfg.download_media = true
        · simp only [hdl, if_true]
          refine mediaExt_trans ?_ (ih _ _ _)
          refine ⟨rfl, rfl, rfl, rfl, fun tok => ⟨_, List.append_assoc _ _ _, ?_⟩⟩
          simp only [List.all_append, Bool.and_eq_true]
          constructor
          · split <;> simp [pageLocalEntry]
          · exact mapped_fs_events_local tok _
        · simp only [hdl, if_false]
          exact ih _ _ _
      | none =>
        dsimp only
        cases hp : m.preview_image_url with
        | some u =>
          dsimp only
          by_cases hdl : cfg.download_media = true
          · simp only [hdl, if_true]
            refine mediaExt_trans ?_ (ih _ _ _)
            refine ⟨rfl, rfl, rfl, rfl, fun tok => ⟨_, List.append_assoc _ _ _, ?_⟩⟩
            simp only [List.all_append, Bool.and_eq_true]
            constructor
            · split <;> simp [pageLocalEntry]
            · exact mapped_fs_events_local tok _
          · simp only [hdl, if_false]
            exact ih _ _ _
        | none => exact ih _ _ _

lemma pageExt_refl (tok : Option Nat) (st : RunState) : PageExt tok st st :=
  ⟨[], by simp, Eq.refl _⟩

lemma pageExt_trans {tok : Option Nat} {s1 s2 s3 : RunState}
    (h12 : PageExt tok s1 s2) (h23 : PageExt tok s2 s3) : PageExt tok s1 s3 := by
  obtain ⟨Δ1, h1, h1a⟩ := h12
  obtain ⟨Δ2, h2, h2a⟩ := h23
  exact ⟨Δ1 ++ Δ2, by rw [h2, h1, List.append_assoc],
    by simp [List.all_append, h1a, h2a]⟩

lemma pageExt_of_mediaExt {st stM : RunState} (tok : Option Nat)
    (hM : MediaExt st stM) : PageExt tok st stM := by
  obtain ⟨-, -, -, -, m5⟩ := hM
  exact m5 tok

lemma doFlush_pageExt (tok : Option Nat) (st : RunState)
    (hlen : LenInv st) (htok : st.pagination_token = tok) :
    PageExt tok st (doFlush st) := by
  refine ⟨[Entry.flush st.tweets_data
    { pagination_token := st.pagination_token, tweets_fetched := st.tweets_fetched }],
    rfl, ?_⟩
  simp [pageLocalEntry, hlen, htok]

lemma appendTweet_spec (st stM : RunState) (t : Tweet) (td : TweetData)
    (hM : MediaExt st stM) (hlen : LenInv st)
    (hdup : toString t.id ∉ st.existing_ids)
    (hid : td.id = toString t.id) :
    LenInv (appendTweet stM (toString t.id) td) ∧
    (appendTweet stM (toString t.id) td).pagination_token = st.pagination_token ∧
    PageExt st.pagination_token st (appendTweet stM (toString t.id) td) ∧
    (DedupInv st → DedupInv (appendTweet stM (toString t.id) td)) := by
  obtain ⟨m1, m2, m3, m4, m5⟩ := hM
  refine ⟨?_, m4, ?_, ?_⟩
  · show stM.tweets_fetched + 1 = (stM.tweets_data ++ [td]).length
    rw [m3, m1, hlen]
    simp
  · obtain ⟨Δ, hΔ, hΔa⟩ := m5 st.pagination_token
    exact ⟨Δ, hΔ, hΔa⟩
  · rintro ⟨d1, d2⟩
    constructor
    · show ((stM.tweets_data ++ [td]).map TweetData.id).Nodup
      rw [m1]
      simp only [List.map_append, List.map_cons, List.map_nil]
      rw [List.nodup_append]
      refine ⟨d1, List.nodup_singleton _, ?_⟩
      intro x hx
      simp only [List.mem_singleton]
      intro hxe
      exact hdup (by rw [← hid, ← hxe]; exact d2 x hx)
    · show ∀ x ∈ (stM.tweets_data ++ [td]).map TweetData.id,
        x ∈ toString t.id :: stM.existing_ids
      rw [m1, m2]
      intro x hx
      simp only [List.map_append, List.map_cons, List.map_nil,
        List.mem_append, List.mem_singleton] at hx
      rcases hx with hx | hx
      · exact List.mem_cons_of_mem _ (d2 x hx)
      · rw [hx, hid]
        exact List.mem_cons_self _ _

lemma maybeFlush_spec (cfg : Cfg) (tok : Option Nat) (st st2 : RunState)
    (hlen : LenInv st2) (htok : st2.pagination_token = tok)
    (hext : PageExt tok st st2) :
    LenInv (maybeFlush cfg st2) ∧
    (maybeFlush cfg st2).pagination_token = tok ∧
    PageExt tok st (maybeFlush cfg st2) ∧
    (DedupInv st2 → DedupInv (maybeFlush cfg st2)) ∧
    (maybeFlush cfg st2).tweets_fetched = st2.tweets_fetched ∧
    (maybeFlush cfg st2).tweets_data = st2.tweets_data ∧
    (maybeFlush cfg st2).existing_ids = st2.existing_ids := by
  unfold maybeFlush
  split
  · exact ⟨hlen, htok, pageExt_trans hext (doFlush_pageExt tok st2 hlen htok),
      fun h => h, rfl, rfl, rfl⟩
  · exact ⟨hlen, htok, hext, fun h => h, rfl, rfl, rfl⟩

lemma processTweets_spec (cfg : Cfg) (ud : List Author) (md : List MediaRec)
    (ts : List Tweet) : ∀ (st : RunState), LenInv st →
    LenInv (processTweets cfg ud md ts st).1 ∧
    (processTweets cfg ud md ts st).1.pagination_token = st.pagination_token ∧
    PageExt st.pagination_token st (processTweets cfg ud md ts st).1 ∧
    (DedupInv st → DedupInv (processTweets cfg ud md ts st).1) := by
  induction ts with
  | nil =>
    intro st h
    simp only [processTweets]
    exact ⟨h, by simp, pageExt_refl _ _, fun x => x⟩
  | cons t rest ih =>
    intro st hlen
    by_cases hdup : toString t.id ∈ st.existing_ids
    · simp only [processTweets, if_pos hdup]
      exact ih st hlen
    · cases ha : pyDictGet Author.id ud t.author_id with
      | none =>
        simp only [processTweets, if_neg hdup, ha]
        exact ih st hlen
      | some a =>
        cases hatt : t.attachments with
        | none =>
          simp only [processTweets, if_neg hdup, ha, hatt]
          obtain ⟨l2, p2, e2, d2⟩ :=
            appendTweet_spec st st t
              { process_tweet t a with media := ([] : List MediaInfo) }
              (mediaExt_refl st) hlen hdup rfl
          obtain ⟨l3, p3, e3, d3, -, -, -⟩ :=
            maybeFlush_spec cfg st.pagination_token st _ l2 p2 e2
          split
          · exact ⟨l3, p3, e3, fun h => d3 (d2 h)⟩
          · obtain ⟨lr, pr, er, dr⟩ := ih _ l3
            refine ⟨lr, by rw [pr, p3], ?_, fun h => dr (d3 (d2 h))⟩
            exact pageExt_trans e3 (p3 ▸ er)
        | some keys =>
          simp only [processTweets, if_neg hdup, ha, hatt]
          obtain ⟨l2, p2, e2, d2⟩ :=
            appendTweet_spec st (processMediaKeys cfg md t.id keys 0 [] st).2 t
              { process_tweet t a with
                media := (processMediaKeys cfg md t.id keys 0 [] st).1 }
              (processMediaKeys_ext cfg md t.id keys 0 [] st) hlen hdup rfl
          obtain ⟨l3, p3, e3, d3, -, -, -⟩ :=
            maybeFlush_spec cfg st.pagination_token st _ l2 p2 e2
          split
          · exact ⟨l3, p3, e3, fun h => d3 (d2 h)⟩
          · obtain ⟨lr, pr, er, dr⟩ := ih _ l3
            refine ⟨lr, by rw [pr, p3], ?_, fun h => dr (d3 (d2 h))⟩
            exact pageExt_trans e3 (p3 ▸ er)

lemma cursorOkE_cons_ev (A : List (Option Nat)) (e : Event) (l : List Entry) :
    cursorOkE A (Entry.ev e :: l) = cursorOkE (stepAllowed A (Entry.ev e)) l := by
  simp [cursorOkE]

lemma allowedAfterE_cons (A : List (Option Nat)) (en : Entry) (l : List Entry) :
    allowedAfterE A (en :: l) = allowedAfterE (stepAllowed A en) l := rfl

lemma stepAllowed_pageDone (A : List (Option Nat)) (t : Option Nat) (c : Bool)
    (m : Nat) : stepAllowed A (Entry.ev (Event.pageDone t c m)) = A := rfl

lemma loop_spec (cfg : Cfg) (src : Source) :
    ∀ (fuel : Nat) (st : RunState), LenInv st →
    LenInv (loop cfg src fuel st).state ∧
    (DedupInv st → DedupInv (loop cfg src fuel st).state) ∧
    (∃ Δ, (loop cfg src fuel st).state.entries = st.entries ++ Δ ∧
      Δ.all entryOk = true ∧
      ∀ A : List (Option Nat), st.pagination_token ∈ A →
        cursorOkE A Δ = true ∧
        (loop cfg src fuel st).state.pagination_token ∈ allowedAfterE A Δ) ∧
    (∀ e st', loop cfg src fuel st = LoopOut.failed e st' →
      ∃ pre, st'.entries = pre ++
        [Entry.ev (Event.fetchPageErr st'.pagination_token
          (min 100 (cfg.count - st'.tweets_fetched)))]) := by
  intro fuel
  induction fuel with
  | zero =>
    intro st hlen
    rw [loop.eq_def]
    try dsimp only
    by_cases hlt : st.tweets_fetched < cfg.count
    · rw [if_pos hlt]
      dsimp only [LoopOut.state]
      refine ⟨hlen, fun h => h,
        ⟨[], by simp, rfl, fun A hA => ⟨rfl, by simpa [allowedAfterE] using hA⟩⟩, ?_⟩
      intro e st' h
      exact nomatch h
    · rw [if_neg hlt]
      dsimp only [LoopOut.state]
      refine ⟨hlen, fun h => h,
        ⟨[], by simp, rfl, fun A hA => ⟨rfl, by simpa [allowedAfterE] using hA⟩⟩, ?_⟩
      intro e st' h
      exact nomatch h
  | succ n ih =>
    intro st hlen
    rw [loop.eq_def]
    try dsimp only
    by_cases hlt : st.tweets_fetched < cfg.count
    · rw [if_pos hlt]
      try dsimp only
      cases hpg : src.pages st.pagination_token (min 100 (cfg.count - st.tweets_fetched)) with
      | error e =>
        dsimp only [LoopOut.state]
        refine ⟨hlen, fun h => h, ?_, ?_⟩
        · refine ⟨[Entry.ev (Event.fetchPageErr st.pagination_token
            (min 100 (cfg.count - st.tweets_fetched)))], rfl, rfl, fun A hA => ?_⟩
          constructor
          · simp [cursorOkE, stepAllowed]
          · simp [allowedAfterE, stepAllowed, emitE]
        · intro e' st' h
          injection h with h1 h2
          subst h2
          exact ⟨st.entries, rfl⟩
      | ok page =>
        try dsimp only
        by_cases hemp : page.data.isEmpty
        · rw [if_pos hemp]
          dsimp only [LoopOut.state]
          refine ⟨hlen, fun h => h, ?_, ?_⟩
          · refine ⟨[Entry.ev (Event.fetchPageOk st.pagination_token
              (min 100 (cfg.count - st.tweets_fetched)) page.next_token)], rfl, rfl,
              fun A hA => ?_⟩
            constructor
            · simp [cursorOkE, stepAllowed]
            · cases page.next_token <;>
                simp [allowedAfterE, stepAllowed, emitE]
          · intro e' st' h
            exact nomatch h
        · rw [if_neg hemp]
          cases hnt : page.next_token with
          | some nt =>
            try dsimp only
            set st1 := emitE st (Event.fetchPageOk st.pagination_token
              (min 100 (cfg.count - st.tweets_fetched)) (some nt)) with hst1
            set r := processTweets cfg page.users page.media page.data st1 with hr
            set st3 := emitE r.1 (Event.pageDone st.pagination_token r.2.1 r.2.2) with hst3
            set st4 := advanceToken st3 nt with hst4
            obtain ⟨lp, pp, ep, dp⟩ :=
              processTweets_spec cfg page.users page.media page.data st1 hlen
            obtain ⟨Δp, hΔp, hΔpa⟩ := ep
            rw [← hr] at hΔp
            obtain ⟨l5, d5, ⟨Δr, hΔr, hΔra, hcur⟩, hfail5⟩ := ih st4 lp
            refine ⟨l5, fun h => d5 (dp h), ?_, ?_⟩
            · refine ⟨Entry.ev (Event.fetchPageOk st.pagination_token
                  (min 100 (cfg.count - st.tweets_fetched)) (some nt)) ::
                  (Δp ++ (Entry.ev (Event.pageDone st.pagination_token r.2.1 r.2.2) :: Δr)),
                ?_, ?_, ?_⟩
              · rw [hΔr]
                have h4 : st4.entries = (st.entries ++
                    [Entry.ev (Event.fetchPageOk st.pagination_token
                      (min 100 (cfg.count - st.tweets_fetched)) (some nt))]) ++ Δp ++
                    [Entry.ev (Event.pageDone st.pagination_token r.2.1 r.2.2)] := by
                  show st3.entries = _
                  rw [hst3]
                  show r.1.entries ++ _ = _
                  rw [hΔp, hst1]
                  rfl
                rw [h4]
                simp [List.append_assoc]
              · rw [List.all_cons, List.all_append, List.all_cons]
                simp only [Bool.and_eq_true]
                exact ⟨rfl, all_entryOk_of_pageLocal _ _ hΔpa, rfl, hΔra⟩
              · intro A hA
                have hA1 : st.pagination_token ∈
                    stepAllowed A (Entry.ev (Event.fetchPageOk st.pagination_token
                      (min 100 (cfg.count - st.tweets_fetched)) (some nt))) := by
                  simp [stepAllowed]
                have hnt1 : (some nt : Option Nat) ∈
                    stepAllowed A (Entry.ev (Event.fetchPageOk st.pagination_token
                      (min 100 (cfg.count - st.tweets_fetched)) (some nt))) := by
                  simp [stepAllowed]
                obtain ⟨hcp, hap⟩ := cursorOkE_local st.pagination_token Δp _ hΔpa hA1
                obtain ⟨hcr, har⟩ := hcur _ hnt1
                constructor
                · rw [cursorOkE_cons_ev, cursorOkE_append, hap, hcp,
                    cursorOkE_cons_ev, stepAllowed_pageDone, hcr]
                  rfl
                · rw [allowedAfterE_cons, allowedAfterE_append, hap,
                    allowedAfterE_cons, stepAllowed_pageDone]
                  exact har
            · intro e' st' h
              exact hfail5 e' st' h
          | none =>
            try dsimp only [LoopOut.state]
            set st1 := emitE st (Event.fetchPageOk st.pagination_token
              (min 100 (cfg.count - st.tweets_fetched)) none) with hst1
            set r := processTweets cfg page.users page.media page.data st1 with hr
            set st3 := emitE r.1 (Event.pageDone st.pagination_token r.2.1 r.2.2) with hst3
            obtain ⟨lp, pp, ep, dp⟩ :=
              processTweets_spec cfg page.users page.media page.data st1 hlen
            obtain ⟨Δp, hΔp, hΔpa⟩ := ep
            rw [← hr] at hΔp
            refine ⟨lp, fun h => dp h, ?_, ?_⟩
            · refine ⟨Entry.ev (Event.fetchPageOk st.pagination_token
                  (min 100 (cfg.count - st.tweets_fetched)) none) ::
                  (Δp ++ [Entry.ev (Event.pageDone st.pagination_token r.2.1 r.2.2)]),
                ?_, ?_, ?_⟩
              · show st3.entries = _
                rw [hst3]
                show r.1.entries ++ _ = _
                rw [hΔp, hst1]
                simp [emitE, List.append_assoc]
              · rw [List.all_cons, List.all_append, List.all_cons]
                simp only [Bool.and_eq_true]
                exact ⟨rfl, all_entryOk_of_pageLocal _ _ hΔpa, rfl, rfl⟩
              · intro A hA
                have hA1 : st.pagination_token ∈
                    stepAllowed A (Entry.ev (Event.fetchPageOk st.pagination_token
                      (min 100 (cfg.count - st.tweets_fetched)) none)) := by
                  simp [stepAllowed]
                obtain ⟨hcp, hap⟩ := cursorOkE_local st.pagination_token Δp _ hΔpa hA1
                constructor
                · rw [cursorOkE_cons_ev, cursorOkE_append, hap, hcp,
                    cursorOkE_cons_ev, stepAllowed_pageDone]
                  rfl
                · rw [allowedAfterE_cons, allowedAfterE_append, hap,
                    allowedAfterE_cons, stepAllowed_pageDone]
                  have pp' : r.1.pagination_token = st1.pagination_token := pp
                  show r.1.pagination_token ∈ _
                  rw [pp']
                  exact hA1
            · intro e' st' h
              exact nomatch h
    · rw [if_neg hlt]
      dsimp only [LoopOut.state]
      refine ⟨hlen, fun h => h,
        ⟨[], by simp, rfl, fun A hA => ⟨rfl, by simpa [allowedAfterE] using hA⟩⟩, ?_⟩
      intro e st' h
      exact nomatch h

/-! ## C2: flush order and checkpoint/dataset consistency -/

/-- C2: in every run, scanning the flat sequence of persistence operations,
every Checkpoint write is immediately preceded by a Dataset write (the
Dataset document is always written first at every flush site, src lines
268-269, 287-288, 292-293), and the checkpoint's `tweets_fetched` equals the
length of the Dataset document written with it — so every item counted by
`items_fetched` exists in the persisted Dataset, in every reachable flushed
state (incremental flushes, failure flush, final flush). -/
theorem c2_flush_order_and_consistency (cfg : Cfg) (src : Source) (fuel : Nat)
    (d0 : List TweetData) (t0 : Option Nat) (fs0 : FS) :
    ckptOk (flattenJ
      (fetch_liked_tweets cfg src fuel d0 t0 fs0).state.entries) = true := by
  unfold fetch_liked_tweets
  cases hme : src.getMe with
  | error e => rfl
  | ok o =>
    cases o with
    | none => rfl
    | some uid =>
      have hspec := loop_spec cfg src fuel (initState d0 t0 fs0) rfl
      cases hl : loop cfg src fuel (initState d0 t0 fs0) with
      | done stL =>
        rw [hl] at hspec
        dsimp only [LoopOut.state] at hspec
        obtain ⟨l1, -, ⟨Δ, hΔ, hΔok, -⟩, -⟩ := hspec
        dsimp only [FetchResult.state]
        have hent : (doFlush stL).entries =
            (Entry.ev Event.getMe :: Δ) ++
            [Entry.flush stL.tweets_data
              { pagination_token := stL.pagination_token,
                tweets_fetched := stL.tweets_fetched }] := by
          show stL.entries ++ _ = _
          rw [hΔ]
          rfl
        rw [hent]
        apply ckptOk_of_entriesOk
        simp only [List.all_append, List.all_cons, List.all_nil, Bool.and_eq_true,
          Bool.and_true]
        exact ⟨⟨rfl, hΔok⟩, beq_iff_eq.mpr l1⟩
      | failed e stL =>
        rw [hl] at hspec
        dsimp only [LoopOut.state] at hspec
        obtain ⟨l1, -, ⟨Δ, hΔ, hΔok, -⟩, -⟩ := hspec
        dsimp only [FetchResult.state]
        have hent : (doFlush stL).entries =
            (Entry.ev Event.getMe :: Δ) ++
            [Entry.flush stL.tweets_data
              { pagination_token := stL.pagination_token,
                tweets_fetched := stL.tweets_fetched }] := by
          show stL.entries ++ _ = _
          rw [hΔ]
          rfl
        rw [hent]
        apply ckptOk_of_entriesOk
        simp only [List.all_append, List.all_cons, List.all_nil, Bool.and_eq_true,
          Bool.and_true]
        exact ⟨⟨rfl, hΔok⟩, beq_iff_eq.mpr l1⟩
      | fuel stL =>
        rw [hl] at hspec
        dsimp only [LoopOut.state] at hspec
        obtain ⟨-, -, ⟨Δ, hΔ, hΔok, -⟩, -⟩ := hspec
        dsimp only [FetchResult.state]
        have hent : stL.entries = Entry.ev Event.getMe :: Δ := hΔ
        rw [hent]
        apply ckptOk_of_entriesOk
        simp only [List.all_cons, Bool.and_eq_true]
        exact ⟨rfl, hΔok⟩

/-! ## C1 amended: every saved cursor is anchored at the most recent page -/

/-- C1 amended: for every checkpoint persisted during a run, the saved
pagination cursor is either the request token of the most recent page fetch
before that flush or the `next_token` returned by that fetch (before any
fetch: the cursor loaded from the previous checkpoint). In particular the
cursor never falls behind the page being processed at flush time; it may
however equal the request token of that most recent page itself — which is
exactly the situation of the counterexample, where the just-consumed page
would be re-requested and deduplication makes the re-request harmless. -/
theorem c1_amended_cursor_anchored (cfg : Cfg) (src : Source) (fuel : Nat)
    (d0 : List TweetData) (t0 : Option Nat) (fs0 : FS) :
    cursorOkE [t0]
      (fetch_liked_tweets cfg src fuel d0 t0 fs0).state.entries = true := by
  unfold fetch_liked_tweets
  cases hme : src.getMe with
  | error e => rfl
  | ok o =>
    cases o with
    | none => rfl
    | some uid =>
      have hspec := loop_spec cfg src fuel (initState d0 t0 fs0) rfl
      cases hl : loop cfg src fuel (initState d0 t0 fs0) with
      | done stL =>
        rw [hl] at hspec
        dsimp only [LoopOut.state] at hspec
        obtain ⟨-, -, ⟨Δ, hΔ, -, hcur⟩, -⟩ := hspec
        obtain ⟨hc, hm⟩ := hcur [t0] (List.mem_singleton_self _)
        dsimp only [FetchResult.state]
        have hent : (doFlush stL).entries =
            Entry.ev Event.getMe :: (Δ ++
            [Entry.flush stL.tweets_data
              { pagination_token := stL.pagination_token,
                tweets_fetched := stL.tweets_fetched }]) := by
          show stL.entries ++ _ = _
          rw [hΔ]
          rfl
        rw [hent, cursorOkE_cons_ev]
        show cursorOkE [t0] _ = true
        rw [cursorOkE_append, hc]
        simp [cursorOkE, hm]
      | failed e stL =>
        rw [hl] at hspec
        dsimp only [LoopOut.state] at hspec
        obtain ⟨-, -, ⟨Δ, hΔ, -, hcur⟩, -⟩ := hspec
        obtain ⟨hc, hm⟩ := hcur [t0] (List.mem_singleton_self _)
        dsimp only [FetchResult.state]
        have hent : (doFlush stL).entries =
            Entry.ev Event.getMe :: (Δ ++
            [Entry.flush stL.tweets_data
              { pagination_token := stL.pagination_token,
                tweets_fetched := stL.tweets_fetched }]) := by
          show stL.entries ++ _ = _
          rw [hΔ]
          rfl
        rw [hent, cursorOkE_cons_ev]
        show cursorOkE [t0] _ = true
        rw [cursorOkE_append, hc]
        simp [cursorOkE, hm]
      | fuel stL =>
        rw [hl] at hspec
        dsimp only [LoopOut.state] at hspec
        obtain ⟨-, -, ⟨Δ, hΔ, -, hcur⟩, -⟩ := hspec
        obtain ⟨hc, -⟩ := hcur [t0] (List.mem_singleton_self _)
        dsimp only [FetchResult.state]
        rw [hΔ]
        show cursorOkE [t0] (Entry.ev Event.getMe :: Δ) = true
        rw [cursorOkE_cons_ev]
        show cursorOkE [t0] Δ = true
        exact hc

/-! ## C3: deduplication -/

/-- C3: when the Dataset loaded at startup has pairwise distinct ids (as any
Dataset persisted by the engine does), the Dataset at the end of any run —
normal, failed or interrupted — still has pairwise distinct ids; and an
incoming item whose id is already registered in the accumulator is dropped
silently: processing it is a no-op (state unchanged, no error) and the loop
moves on to the rest of the page, even when pages overlap after a resume. -/
theorem c3_dedup_invariant (cfg : Cfg) (src : Source) (fuel : Nat)
    (d0 : List TweetData) (t0 : Option Nat) (fs0 : FS)
    (ud : List Author) (md : List MediaRec) (t : Tweet) (rest : List Tweet)
    (st : RunState)
    (hnd : (d0.map TweetData.id).Nodup)
    (hdup : toString t.id ∈ st.existing_ids) :
    ((fetch_liked_tweets cfg src fuel d0 t0 fs0).state.tweets_data.map
      TweetData.id).Nodup ∧
    processTweets cfg ud md (t :: rest) st = processTweets cfg ud md rest st := by
  constructor
  · have hd0 : DedupInv (initState d0 t0 fs0) := ⟨hnd, fun x hx => hx⟩
    unfold fetch_liked_tweets
    cases hme : src.getMe with
    | error e => exact hnd
    | ok o =>
      cases o with
      | none => exact hnd
      | some uid =>
        have hspec := loop_spec cfg src fuel (initState d0 t0 fs0) rfl
        cases hl : loop cfg src fuel (initState d0 t0 fs0) with
        | done stL =>
          rw [hl] at hspec
          dsimp only [LoopOut.state] at hspec
          exact (hspec.2.1 hd0).1
        | failed e stL =>
          rw [hl] at hspec
          dsimp only [LoopOut.state] at hspec
          exact (hspec.2.1 hd0).1
        | fuel stL =>
          rw [hl] at hspec
          dsimp only [LoopOut.state] at hspec
          exact (hspec.2.1 hd0).1
  · simp only [processTweets, if_pos hdup]

/-- C3 witness: concrete instantiation (a loaded Dataset with one item of
id "9"; re-processing an incoming tweet with the same id is a no-op). -/
theorem c3_dedup_invariant_witness :
    ((fetch_liked_tweets fxCfg fxSrcOk 5 [fxTd] none []).state.tweets_data.map
      TweetData.id).Nodup ∧
    processTweets fxCfg [fxAuthor] [] (fxTweet 9 7 :: [fxTweet 2 7])
        (initState [fxTd] none []) =
      processTweets fxCfg [fxAuthor] [] [fxTweet 2 7]
        (initState [fxTd] none []) :=
  c3_dedup_invariant fxCfg fxSrcOk 5 [fxTd] none [] [fxAuthor] []
    (fxTweet 9 7) [fxTweet 2 7] (initState [fxTd] none [])
    (by decide) (by decide)

/-! ## C6: fatal errors flush once and re-raise -/

/-- C6: whenever `fetch_liked_tweets` propagates an exception `e` to the
caller, the journal of the final state ends with the failing page request
followed by exactly one flush — of the current Dataset and of a checkpoint
whose cursor is the token that requested the failing page (the cursor valid
before that page, since the cursor only advances after a page is processed)
and whose count is exactly the number of items fetched so far — and nothing
else happens after that flush: the same error is re-raised (src 284-289). -/
theorem c6_failure_single_flush (cfg : Cfg) (src : Source) (fuel : Nat)
    (d0 : List TweetData) (t0 : Option Nat) (fs0 : FS) (e : String)
    (stF : RunState)
    (h : fetch_liked_tweets cfg src fuel d0 t0 fs0 = FetchResult.error e stF) :
    (∃ pre, stF.entries = pre ++
      [Entry.ev (Event.fetchPageErr stF.pagination_token
          (min 100 (cfg.count - stF.tweets_fetched))),
       Entry.flush stF.tweets_data
         { pagination_token := stF.pagination_token,
           tweets_fetched := stF.tweets_fetched }]) ∧
    stF.tweets_fetched = stF.tweets_data.length := by
  unfold fetch_liked_tweets at h
  cases hme : src.getMe with
  | error e' => rw [hme] at h; simp at h
  | ok o =>
    cases o with
    | none => rw [hme] at h; simp at h
    | some uid =>
      rw [hme] at h
      cases hl : loop cfg src fuel (initState d0 t0 fs0) with
      | done stL => rw [hl] at h; simp at h
      | fuel stL => rw [hl] at h; simp at h
      | failed e1 stL =>
        rw [hl] at h
        simp only [FetchResult.error.injEq] at h
        obtain ⟨he, hst⟩ := h
        subst hst
        have hspec := loop_spec cfg src fuel (initState d0 t0 fs0) rfl
        rw [hl] at hspec
        dsimp only [LoopOut.state] at hspec
        obtain ⟨l1, -, -, hfail⟩ := hspec
        obtain ⟨pre, hpre⟩ := hfail e1 stL rfl
        refine ⟨⟨pre, ?_⟩, l1⟩
        show stL.entries ++ _ = _
        rw [hpre]
        simp [List.append_assoc, doFlush]

/-- C6 witness: concrete instantiation (the first page fetch raises "boom";
the journal is get_me, the failed request, then exactly one flush with the
pre-failure cursor). -/
theorem c6_failure_single_flush_witness :
    (∃ pre,
      (FetchResult.state (fetch_liked_tweets fxCfg fxSrcFetchFail 5 [] none [])).entries =
        pre ++
        [Entry.ev (Event.fetchPageErr
            (FetchResult.state
              (fetch_liked_tweets fxCfg fxSrcFetchFail 5 [] none [])).pagination_token
            (min 100 (fxCfg.count -
              (FetchResult.state
                (fetch_liked_tweets fxCfg fxSrcFetchFail 5 [] none [])).tweets_fetched))),
         Entry.flush
           (FetchResult.state
             (fetch_liked_tweets fxCfg fxSrcFetchFail 5 [] none [])).tweets_data
           { pagination_token :=
               (FetchResult.state
                 (fetch_liked_tweets fxCfg fxSrcFetchFail 5 [] none [])).pagination_token,
             tweets_fetched :=
               (FetchResult.state
                 (fetch_liked_tweets fxCfg fxSrcFetchFail 5 [] none [])).tweets_fetched }]) ∧
    (FetchResult.state
      (fetch_liked_tweets fxCfg fxSrcFetchFail 5 [] none [])).tweets_fetched =
      (FetchResult.state
        (fetch_liked_tweets fxCfg fxSrcFetchFail 5 [] none [])).tweets_data.length :=
  c6_failure_single_flush fxCfg fxSrcFetchFail 5 [] none [] "boom"
    (FetchResult.state (fetch_liked_tweets fxCfg fxSrcFetchFail 5 [] none []))
    (by decide)
